import Mathlib

/-!
Verification of the issuance-tracking script in Point-1/check_issuance.py.

The script keeps a rolling snapshot of a spreadsheet, compares the stored
previous snapshot to the freshly read one cell by cell, logs every detected
change, persists the current snapshot and file hash, and then walks the
current rows sending a reminder email for items due tomorrow and an
escalation email to the administrator list for overdue items.

This file is a shallow embedding of that core logic: snapshots become grids
of cell values, the pandas inequality test on scalars becomes a Boolean
comparison in which the null-like scalar compares unequal to everything
including itself, dates become integer day numbers, and the run becomes a
function producing an ordered trace of events.
-/

/--
One scalar cell of the dataframe as the comparison at line 160 of
check_issuance.py sees it. The date columns are coerced at lines 139-140 by
pd.to_datetime with coercion of parse failures, so a cell is either a
null-like scalar (NaT or NaN), a date, a piece of text, or a number. A date
is modelled as an integer day number.
-/
inductive Cell where
  | null : Cell
  | date (day : Int) : Cell
  | text (s : String) : Cell
  | num (n : Int) : Cell
deriving DecidableEq, Repr

/-- True when the cell is the null-like scalar. -/
def Cell.isNull : Cell → Bool
  | Cell.null => true
  | _ => false

/--
The pandas scalar inequality used at line 160, val_current != val_previous.
The null-like scalar (NaT or NaN) compares unequal to every value including
another null-like scalar; equal-kind values compare by value; values of
different kinds compare unequal.
-/
def cellNe : Cell → Cell → Bool
  | Cell.null, _ => true
  | _, Cell.null => true
  | Cell.date a, Cell.date b => a != b
  | Cell.text a, Cell.text b => a != b
  | Cell.num a, Cell.num b => a != b
  | _, _ => true

/--
A snapshot of the dataframe: the column count together with the rows, each
row a list of cells. Mirrors the pickled previous dataframe and the freshly
read current one.
-/
structure Snapshot where
  cols : Nat
  rows : List (List Cell)
deriving DecidableEq, Repr

/-- The dataframe shape as compared at line 147: row count and column count. -/
def Snapshot.shape (s : Snapshot) : Nat × Nat := (s.rows.length, s.cols)

/-- The cell access of lines 158-159 at a row and column index, with the null scalar as default. -/
def cellAt (s : Snapshot) (r c : Nat) : Cell :=
  (s.rows.getD r []).getD c Cell.null

/--
One change message written to the change log by check_excel, as a tagged
record: the shape message of line 148, the cell message of line 161, the
row messages of lines 166 and 169, the first-run message of line 172 and
the hash-change message of line 125.
-/
inductive ChangeRecord where
  | shapeChanged (oldShape newShape : Nat × Nat) : ChangeRecord
  | cellChanged (row col : Nat) (oldVal newVal : Cell) : ChangeRecord
  | rowAdded (row : Nat) (record : List Cell) : ChangeRecord
  | rowRemoved (row : Nat) (record : List Cell) : ChangeRecord
  | firstRun : ChangeRecord
  | hashChanged : ChangeRecord
deriving DecidableEq, Repr

/--
The cell comparison loop of lines 153-161: for every row below the smaller
row count and every column below the smaller column count, compare the
current cell to the previous cell with the pandas inequality and log a cell
change on mismatch, in row-major order.
-/
def cellDiffs (df_previous df_current : Snapshot) : List ChangeRecord :=
  (List.range (min df_current.rows.length df_previous.rows.length)).flatMap fun r =>
    (List.range (min df_current.cols df_previous.cols)).filterMap fun c =>
      if cellNe (cellAt df_current r c) (cellAt df_previous r c) then
        Option.some (ChangeRecord.cellChanged r c (cellAt df_previous r c) (cellAt df_current r c))
      else Option.none

/--
The trailing row comparison of lines 163-169: when the current snapshot has
more rows, one rowAdded record per extra trailing index carrying the new
row; when the previous snapshot has more rows, one rowRemoved record per
extra trailing index carrying the removed row.
-/
def rowDiffs (df_previous df_current : Snapshot) : List ChangeRecord :=
  if df_previous.rows.length < df_current.rows.length then
    (List.range' df_previous.rows.length
        (df_current.rows.length - df_previous.rows.length)).map fun r =>
      ChangeRecord.rowAdded r (df_current.rows.getD r [])
  else if df_current.rows.length < df_previous.rows.length then
    (List.range' df_current.rows.length
        (df_previous.rows.length - df_current.rows.length)).map fun r =>
      ChangeRecord.rowRemoved r (df_previous.rows.getD r [])
  else []

/--
The comparison block of lines 145-172 of check_excel, as the sequence of
change records it logs: with no previous snapshot, the single first-run
marker of line 172; otherwise the shape record of lines 147-148 when the
shapes differ, then the cell records, then the trailing row records.
-/
def diff : Option Snapshot → Snapshot → List ChangeRecord
  | Option.none, _ => [ChangeRecord.firstRun]
  | Option.some df_previous, df_current =>
    (if df_current.shape ≠ df_previous.shape then
        [ChangeRecord.shapeChanged df_previous.shape df_current.shape]
      else [])
      ++ cellDiffs df_previous df_current
      ++ rowDiffs df_previous df_current

/--
Decidable check that no cell of the snapshot, at any in-range row and
column index, is the null-like scalar.
-/
def Snapshot.noNullCells (s : Snapshot) : Bool :=
  (List.range s.rows.length).all fun r =>
    (List.range s.cols).all fun c => !(cellAt s r c).isNull

theorem noNullCells_iff (s : Snapshot) :
    s.noNullCells = true ↔
      ∀ r, r < s.rows.length → ∀ c, c < s.cols → (cellAt s r c).isNull = false := by
  simp [Snapshot.noNullCells, List.all_eq_true, List.mem_range]

theorem cellNe_self (v : Cell) : cellNe v v = v.isNull := by
  cases v <;> simp [cellNe, Cell.isNull]

theorem cellNe_of_null_left (v w : Cell) (h : v.isNull = true) : cellNe v w = true := by
  cases v <;> simp_all [Cell.isNull, cellNe]

theorem cellNe_of_null_right (v w : Cell) (h : w.isNull = true) : cellNe v w = true := by
  cases w <;> cases v <;> simp_all [Cell.isNull, cellNe]

/--
Claim C1 counterexample: a snapshot holding one null-like date cell, diffed
against itself, yields a cellChanged record, because the pandas inequality
at line 160 holds between two null-like scalars. So diffing a snapshot
against itself is not always silent.
-/
theorem c1_counterexample :
    diff (Option.some (Snapshot.mk 1 [[Cell.null]])) (Snapshot.mk 1 [[Cell.null]])
      = [ChangeRecord.cellChanged 0 0 Cell.null Cell.null] := rfl

/--
Claim C1, amended: for every snapshot with no null-like cell at any
in-range position, diffing the snapshot against itself produces no change
records at all.
-/
theorem c1_diff_self_amended (S : Snapshot) (h : S.noNullCells = true) :
    diff (Option.some S) S = [] := by
  have hp := (noNullCells_iff S).mp h
  have hcell : cellDiffs S S = [] := by
    unfold cellDiffs
    rw [List.flatMap_eq_nil_iff]
    intro r hr
    rw [List.filterMap_eq_nil_iff]
    intro c hc
    rw [List.mem_range] at hr hc
    rw [cellNe_self, hp r (by omega) c (by omega)]
    simp
  have hrow : rowDiffs S S = [] := by simp [rowDiffs]
  simp only [diff, hcell, hrow]
  simp

/-- Witness for the amended claim C1 at a concrete null-free snapshot. -/
theorem c1_witness :
    (Snapshot.mk 2 [[Cell.date 1, Cell.text "a"]]).noNullCells = true ∧
      diff (Option.some (Snapshot.mk 2 [[Cell.date 1, Cell.text "a"]]))
        (Snapshot.mk 2 [[Cell.date 1, Cell.text "a"]]) = [] :=
  ⟨by decide, c1_diff_self_amended (Snapshot.mk 2 [[Cell.date 1, Cell.text "a"]]) (by decide)⟩

/--
Claim C2 counterexample: the pandas inequality of line 160 holds between
two null-like scalars, so two snapshots whose corresponding cells are both
null-like dates DO yield a cellChanged record for that cell.
-/
theorem c2_counterexample :
    cellNe Cell.null Cell.null = true ∧
      diff (Option.some (Snapshot.mk 2 [[Cell.date 5, Cell.null]]))
          (Snapshot.mk 2 [[Cell.date 5, Cell.null]])
        = [ChangeRecord.cellChanged 0 1 Cell.null Cell.null] :=
  ⟨rfl, rfl⟩

/--
Claim C2, amended: a null-like cell compares unequal to every value,
including another null-like value; consequently, whenever a previous-cell
at an in-range position is null-like, the Differ emits a cellChanged record
at that position, regardless of the current-cell value.
-/
theorem c2_null_unequal_amended :
    (∀ v : Cell, cellNe Cell.null v = true ∧ cellNe v Cell.null = true) ∧
      (∀ (df_previous df_current : Snapshot) (r c : Nat),
        r < min df_current.rows.length df_previous.rows.length →
        c < min df_current.cols df_previous.cols →
        (cellAt df_previous r c).isNull = true →
        ChangeRecord.cellChanged r c (cellAt df_previous r c) (cellAt df_current r c)
          ∈ diff (Option.some df_previous) df_current) := by
  constructor
  · intro v
    exact ⟨cellNe_of_null_left _ _ rfl, cellNe_of_null_right _ _ rfl⟩
  · intro df_previous df_current r c hr hc hnull
    have hmem : ChangeRecord.cellChanged r c (cellAt df_previous r c) (cellAt df_current r c)
        ∈ cellDiffs df_previous df_current := by
      unfold cellDiffs
      rw [List.mem_flatMap]
      refine ⟨r, List.mem_range.mpr hr, ?_⟩
      rw [List.mem_filterMap]
      refine ⟨c, List.mem_range.mpr hc, ?_⟩
      rw [if_pos (cellNe_of_null_right _ _ hnull)]
    simp only [diff]
    exact List.mem_append_left _ (List.mem_append_right _ hmem)

/-- Witness for the amended claim C2 at concrete snapshots. -/
theorem c2_witness :
    ChangeRecord.cellChanged 0 0 Cell.null (Cell.date 7)
      ∈ diff (Option.some (Snapshot.mk 1 [[Cell.null]])) (Snapshot.mk 1 [[Cell.date 7]]) :=
  c2_null_unequal_amended.2 (Snapshot.mk 1 [[Cell.null]]) (Snapshot.mk 1 [[Cell.date 7]])
    0 0 (by decide) (by decide) (by decide)

/--
Claim C5 counterexample: the current snapshot is the previous one plus one
extra trailing row, yet the Differ emits a cellChanged record in addition
to the shapeChanged and rowAdded records, because a shared null-like cell
satisfies the pandas inequality of line 160 against itself.
-/
theorem c5_counterexample :
    (Snapshot.mk 1 [[Cell.null], [Cell.date 3]]).rows
        = (Snapshot.mk 1 [[Cell.null]]).rows ++ [[Cell.date 3]] ∧
      diff (Option.some (Snapshot.mk 1 [[Cell.null]]))
          (Snapshot.mk 1 [[Cell.null], [Cell.date 3]])
        = [ChangeRecord.shapeChanged (1, 1) (2, 1),
           ChangeRecord.cellChanged 0 0 Cell.null Cell.null,
           ChangeRecord.rowAdded 1 [Cell.date 3]] :=
  ⟨rfl, rfl⟩

/--
Claim C5, amended: when the current snapshot is the previous one plus
exactly one extra trailing row, with equal column counts, and the previous
snapshot has no null-like cell, the Differ emits exactly one shapeChanged
record followed by exactly one rowAdded record at the new last index, and
nothing else.
-/
theorem c5_trailing_row_amended (df_previous df_current : Snapshot) (newRow : List Cell)
    (hrows : df_current.rows = df_previous.rows ++ [newRow])
    (hcols : df_current.cols = df_previous.cols)
    (h : df_previous.noNullCells = true) :
    diff (Option.some df_previous) df_current =
      [ChangeRecord.shapeChanged df_previous.shape df_current.shape,
       ChangeRecord.rowAdded df_previous.rows.length newRow] := by
  have hp := (noNullCells_iff df_previous).mp h
  have hlen : df_current.rows.length = df_previous.rows.length + 1 := by
    rw [hrows]; simp
  have hshape : df_current.shape ≠ df_previous.shape := by
    simp only [Snapshot.shape, hlen, ne_eq, Prod.mk.injEq, not_and]
    intro hfalse
    omega
  have hcell : cellDiffs df_previous df_current = [] := by
    unfold cellDiffs
    rw [List.flatMap_eq_nil_iff]
    intro r hr
    rw [List.filterMap_eq_nil_iff]
    intro c hc
    rw [List.mem_range] at hr hc
    have hr' : r < df_previous.rows.length := by omega
    have hc' : c < df_previous.cols := by rw [hcols] at hc; omega
    have hsame : cellAt df_current r c = cellAt df_previous r c := by
      unfold cellAt
      rw [hrows, List.getD_append _ _ _ _ hr']
    rw [hsame, cellNe_self, hp r hr' c hc']
    simp
  have hget : df_current.rows.getD df_previous.rows.length [] = newRow := by
    rw [hrows, List.getD_append_right _ _ _ _ (Nat.le_refl _), Nat.sub_self]
    rfl
  have hrow : rowDiffs df_previous df_current
      = [ChangeRecord.rowAdded df_previous.rows.length newRow] := by
    unfold rowDiffs
    rw [if_pos (by omega)]
    rw [hlen, Nat.add_sub_cancel_left]
    have hr1 : List.range' df_previous.rows.length 1 = [df_previous.rows.length] := rfl
    rw [hr1, List.map_cons, List.map_nil, hget]
  simp only [diff, if_pos hshape, hcell, hrow]
  simp

/-- Witness for the amended claim C5 at a concrete snapshot pair. -/
theorem c5_witness :
    diff (Option.some (Snapshot.mk 1 [[Cell.date 0]]))
        (Snapshot.mk 1 [[Cell.date 0], [Cell.date 9]])
      = [ChangeRecord.shapeChanged (Snapshot.mk 1 [[Cell.date 0]]).shape
           (Snapshot.mk 1 [[Cell.date 0], [Cell.date 9]]).shape,
         ChangeRecord.rowAdded (Snapshot.mk 1 [[Cell.date 0]]).rows.length [Cell.date 9]] :=
  c5_trailing_row_amended (Snapshot.mk 1 [[Cell.date 0]])
    (Snapshot.mk 1 [[Cell.date 0], [Cell.date 9]]) [Cell.date 9] rfl rfl (by decide)

/--
One row of the current dataframe as the notification loop of lines 183-216
reads it: the Name, Roll Number, Email and Returned columns, and the Date
of Return column already coerced, so either absent (the null scalar, which
pd.isnull detects at line 190) or a date as an integer day number. The
returned field holds the raw cell text as Python str renders it, before
the strip and lowercase of line 186.
-/
structure Record where
  name : String
  rollNumber : String
  returnDate : Option Int
  email : String
  returnedRaw : String
deriving DecidableEq, Repr

/--
The normalization applied at line 186 to the Returned cell text: strip
leading and trailing whitespace, then lowercase, written over the character
list of the string.
-/
def strNormalize (s : String) : String :=
  String.mk (((s.data.dropWhile Char.isWhitespace).reverse.dropWhile
      Char.isWhitespace).reverse.map Char.toLower)

/-- Line 186: str of the Returned cell, stripped and lowercased. -/
def returnedFlag (rec : Record) : String :=
  strNormalize rec.returnedRaw

/-- One message handed to send_email: subject, body and recipient list. -/
structure Email where
  subject : String
  body : String
  recipients : List String
deriving DecidableEq, Repr

/-- The administrator recipient list of line 27, ADMIN_EMAILS. -/
def ADMIN_EMAILS : List String :=
  ["admin1@yourdomain.com", "admin2@yourdomain.com"]

/-- Tail of the overdue message body of lines 210-214, after the roll number. -/
def overdueBodyTail : String :=
  " has failed to return the item.\n\nThey are now eligible for a no-due fine.\n\nRegards,\nIssuance System"

/--
The reminder message of lines 198-205: subject Return Due Tomorrow, body
addressed to the individual, sent to the records own email address.
-/
def reminderEmail (rec : Record) : Email :=
  { subject := "Return Due Tomorrow"
    body := "Hello " ++ rec.name ++ " (Roll No: " ++ rec.rollNumber
      ++ "),\n\nThis is a reminder that your item is due tomorrow. Please ensure you return it on time.\n\nRegards,\nIssuance System"
    recipients := [rec.email] }

/--
The overdue message of lines 209-216: subject Failure of Returning, body
naming the roll number, sent to the administrator list.
-/
def overdueEmail (rec : Record) : Email :=
  { subject := "Failure of Returning"
    body := "Roll Number " ++ rec.rollNumber ++ overdueBodyTail
    recipients := ADMIN_EMAILS }

/--
The per-record body of the notification loop, lines 190-216: skip the
record when the return date is null (line 190); otherwise send the
reminder when the return date equals tomorrow, today plus one day, and the
normalized returned flag differs from yes (lines 197-205), and send the
overdue escalation when the return date is strictly before today and the
normalized returned flag differs from yes (lines 208-216). The two tests
are independent in the code, so the result is the concatenation of the two
conditional sends, reminder first.
-/
def recordEmails (rec : Record) (today : Int) : List Email :=
  match rec.returnDate with
  | Option.none => []
  | Option.some d =>
    (if d = today + 1 ∧ returnedFlag rec ≠ "yes" then [reminderEmail rec] else [])
      ++ (if d < today ∧ returnedFlag rec ≠ "yes" then [overdueEmail rec] else [])

/-- The three possible outcomes of the due-date policy for one record. -/
inductive Classification where
  | noneCl : Classification
  | reminderDue : Classification
  | overdue : Classification
deriving DecidableEq, Repr

/--
The due-date policy of lines 190-216 read as a classification: null return
date classifies as none; a return date equal to today plus one with the
record not returned classifies as reminderDue; a return date strictly
before today with the record not returned classifies as overdue; anything
else classifies as none. The two guard conditions are mutually exclusive,
so reading them as a decision chain loses nothing.
-/
def classify (rec : Record) (today : Int) : Classification :=
  match rec.returnDate with
  | Option.none => Classification.noneCl
  | Option.some d =>
    if d = today + 1 ∧ returnedFlag rec ≠ "yes" then Classification.reminderDue
    else if d < today ∧ returnedFlag rec ≠ "yes" then Classification.overdue
    else Classification.noneCl

/--
The emails the loop sends for a record are determined by its
classification: one reminder to the record, one escalation to the
administrators, or nothing.
-/
theorem recordEmails_eq_of_classify (rec : Record) (today : Int) :
    recordEmails rec today =
      match classify rec today with
      | Classification.reminderDue => [reminderEmail rec]
      | Classification.overdue => [overdueEmail rec]
      | Classification.noneCl => [] := by
  rcases hd : rec.returnDate with _ | d
  · simp [recordEmails, classify, hd]
  · simp only [recordEmails, classify, hd]
    by_cases h1 : d = today + 1 ∧ returnedFlag rec ≠ "yes"
    · have h2 : ¬(d < today ∧ returnedFlag rec ≠ "yes") := by
        intro hcontra
        omega
      rw [if_pos h1, if_neg h2, if_pos h1]
      rfl
    · rw [if_neg h1, if_neg h1]
      by_cases h2 : d < today ∧ returnedFlag rec ≠ "yes"
      · rw [if_pos h2, if_pos h2]
        rfl
      · rw [if_neg h2, if_neg h2]
        rfl

/--
Claim C3: for a record with a present return date d, the classification is
reminderDue exactly when d equals today plus one and the record is not
returned, overdue exactly when d is strictly before today and the record
is not returned, and when d equals today the classification is noneCl
regardless of the returned flag.
-/
theorem c3_classification (rec : Record) (today d : Int)
    (h : rec.returnDate = Option.some d) :
    (classify rec today = Classification.reminderDue ↔
        (d = today + 1 ∧ returnedFlag rec ≠ "yes")) ∧
      (classify rec today = Classification.overdue ↔
        (d < today ∧ returnedFlag rec ≠ "yes")) ∧
      (d = today → classify rec today = Classification.noneCl) := by
  simp only [classify, h]
  by_cases h1 : d = today + 1 ∧ returnedFlag rec ≠ "yes"
  · rw [if_pos h1]
    obtain ⟨h1a, h1b⟩ := h1
    refine ⟨by simp [h1a, h1b], ⟨?_, ?_⟩, ?_⟩
    · intro hfalse
      exact absurd hfalse (by simp)
    · intro hc
      obtain ⟨hc1, _⟩ := hc
      exfalso
      omega
    · intro hd
      exfalso
      omega
  · rw [if_neg h1]
    by_cases h2 : d < today ∧ returnedFlag rec ≠ "yes"
    · rw [if_pos h2]
      refine ⟨⟨?_, fun hc => absurd hc h1⟩, by simp [h2], ?_⟩
      · intro hfalse
        exact absurd hfalse (by simp)
      · intro hd
        obtain ⟨h2a, _⟩ := h2
        exfalso
        omega
    · rw [if_neg h2]
      exact ⟨⟨fun hfalse => absurd hfalse (by simp), fun hc => absurd hc h1⟩,
        ⟨fun hfalse => absurd hfalse (by simp), fun hc => absurd hc h2⟩,
        fun _ => rfl⟩

/-- Witness for claim C3 at a concrete record due tomorrow. -/
theorem c3_witness :
    (classify (Record.mk "A" "1" (Option.some 6) "a@x.com" "no") 5
        = Classification.reminderDue ↔
      ((6 : Int) = 5 + 1 ∧
        returnedFlag (Record.mk "A" "1" (Option.some 6) "a@x.com" "no") ≠ "yes")) ∧
      (classify (Record.mk "A" "1" (Option.some 6) "a@x.com" "no") 5
          = Classification.overdue ↔
        ((6 : Int) < 5 ∧
          returnedFlag (Record.mk "A" "1" (Option.some 6) "a@x.com" "no") ≠ "yes")) ∧
      ((6 : Int) = 5 → classify (Record.mk "A" "1" (Option.some 6) "a@x.com" "no") 5
          = Classification.noneCl) :=
  c3_classification (Record.mk "A" "1" (Option.some 6) "a@x.com" "no") 5 6 rfl

/--
Claim C4: the returned flag is normalized by stripping and lowercasing
before comparison with yes, so the four spellings yes, YES, Yes and
space-padded yes all suppress both notifications, and any flag whose
normal form differs from yes leaves the date conditions in sole control.
-/
theorem c4_returned_normalization :
    (∀ (n r e : String) (d : Option Int) (today : Int) (s : String),
        s ∈ (["yes", "YES", "Yes", " yes "] : List String) →
        recordEmails (Record.mk n r d e s) today = []) ∧
      (∀ (n r e s : String) (d today : Int), strNormalize s ≠ "yes" →
        classify (Record.mk n r (Option.some d) e s) today =
          (if d = today + 1 then Classification.reminderDue
            else if d < today then Classification.overdue
            else Classification.noneCl)) := by
  constructor
  · intro n r e d today s hs
    have hflag : returnedFlag (Record.mk n r d e s) = "yes" := by
      simp only [List.mem_cons, List.not_mem_nil, or_false] at hs
      rcases hs with h | h | h | h
      all_goals subst h
      all_goals rfl
    cases d with
    | none => rfl
    | some dd => simp [recordEmails, hflag]
  · intro n r e s d today hs
    have hflag : returnedFlag (Record.mk n r (Option.some d) e s) ≠ "yes" := hs
    simp [classify, hflag]

/-- Witness for claim C4 at two concrete flags. -/
theorem c4_witness :
    recordEmails (Record.mk "n" "r" (Option.some 7) "e" "YES") 6 = [] ∧
      classify (Record.mk "n" "r" (Option.some 7) "e" "no") 6 =
        (if (7 : Int) = 6 + 1 then Classification.reminderDue
          else if (7 : Int) < 6 then Classification.overdue
          else Classification.noneCl) :=
  ⟨c4_returned_normalization.1 "n" "r" "e" (Option.some 7) 6 "YES" (by decide),
    c4_returned_normalization.2 "n" "r" "e" "no" 7 6 (by decide)⟩

/--
Claim C9: a record classified reminderDue gets exactly one message, sent
to its own email address, and a record classified overdue gets exactly one
message, sent to the fixed administrator list, with a body naming the
records roll number.
-/
theorem c9_recipients (rec : Record) (today : Int) :
    (classify rec today = Classification.reminderDue →
        recordEmails rec today = [reminderEmail rec] ∧
          (reminderEmail rec).recipients = [rec.email]) ∧
      (classify rec today = Classification.overdue →
        recordEmails rec today = [overdueEmail rec] ∧
          (overdueEmail rec).recipients = ADMIN_EMAILS ∧
          (overdueEmail rec).body = "Roll Number " ++ rec.rollNumber ++ overdueBodyTail) := by
  constructor
  · intro hc
    refine ⟨?_, rfl⟩
    rw [recordEmails_eq_of_classify, hc]
  · intro hc
    refine ⟨?_, rfl, rfl⟩
    rw [recordEmails_eq_of_classify, hc]

/-- Witness for claim C9 at a concrete overdue record. -/
theorem c9_witness :
    recordEmails (Record.mk "B" "42" (Option.some 4) "b@x.com" "no") 5
        = [overdueEmail (Record.mk "B" "42" (Option.some 4) "b@x.com" "no")] ∧
      (overdueEmail (Record.mk "B" "42" (Option.some 4) "b@x.com" "no")).recipients
        = ADMIN_EMAILS ∧
      (overdueEmail (Record.mk "B" "42" (Option.some 4) "b@x.com" "no")).body
        = "Roll Number " ++ "42" ++ overdueBodyTail :=
  (c9_recipients (Record.mk "B" "42" (Option.some 4) "b@x.com" "no") 5).2 (by decide)

/--
Claim C10: the reminder condition, return date equal to today plus one,
and the overdue condition, return date strictly before today, can never
hold together, so one record triggers at most one notification per run.
-/
theorem c10_mutually_exclusive :
    (∀ d today : Int, ¬(d = today + 1 ∧ d < today)) ∧
      (∀ (rec : Record) (today : Int), (recordEmails rec today).length ≤ 1) := by
  constructor
  · intro d today hc
    obtain ⟨h1, h2⟩ := hc
    omega
  · intro rec today
    rw [recordEmails_eq_of_classify]
    cases classify rec today <;> simp

/--
Outcome of the SMTP transaction attempted inside send_email at lines
54-57: either the message is handed to the relay, or some step of
connecting, upgrading, authenticating or sending raises.
-/
inductive TransportResult where
  | delivered : TransportResult
  | raised (err : String) : TransportResult
deriving DecidableEq, Repr

/--
What a call to send_email yields to its caller: the message went out, or
the exception was caught by the handler of lines 58-59 and printed.
-/
inductive SendOutcome where
  | sent : SendOutcome
  | errorLogged (err : String) : SendOutcome
deriving DecidableEq, Repr

/--
send_email, lines 44-59: the whole transport interaction sits inside a try
block whose handler catches every exception and prints it, so the function
returns normally on every transport outcome and never re-raises.
-/
def send_email (transport : TransportResult) : SendOutcome :=
  match transport with
  | TransportResult.delivered => SendOutcome.sent
  | TransportResult.raised e => SendOutcome.errorLogged e

/--
All messages the loop of lines 183-216 composes for the given records, in
row order, reminder before escalation within one row.
-/
def allEmails (recs : List Record) (today : Int) : List Email :=
  recs.flatMap fun r => recordEmails r today

/--
The notification loop with an explicit transport behaviour: the k-th send
attempt of the run observes the k-th transport outcome. Every composed
message is attempted, whatever the outcomes of earlier attempts, because
send_email never propagates an exception.
-/
def notifyPhase (recs : List Record) (today : Int)
    (transport : Nat → TransportResult) : List (Email × SendOutcome) :=
  (allEmails recs today).enum.map fun p => (p.2, send_email (transport p.1))

/--
Claim C7: a transport failure is absorbed inside send_email, which maps a
raised exception to a logged error and returns; consequently the sequence
of attempted messages of a run does not depend on the transport behaviour
at all, so every record after a failed send is still processed.
-/
theorem c7_transport_failures_isolated :
    (∀ e : String, send_email (TransportResult.raised e) = SendOutcome.errorLogged e) ∧
      (∀ (recs : List Record) (today : Int) (f g : Nat → TransportResult),
        (notifyPhase recs today f).map Prod.fst = allEmails recs today ∧
          (notifyPhase recs today f).map Prod.fst
            = (notifyPhase recs today g).map Prod.fst) := by
  have key : ∀ (recs : List Record) (today : Int) (h : Nat → TransportResult),
      (notifyPhase recs today h).map Prod.fst = allEmails recs today := by
    intro recs today h
    unfold notifyPhase
    rw [List.map_map]
    have hcomp : (Prod.fst ∘ fun p : Nat × Email => (p.2, send_email (h p.1)))
        = Prod.snd := rfl
    rw [hcomp]
    exact List.enumFrom_map_snd 0 _
  exact ⟨fun e => rfl, fun recs today f g =>
    ⟨key recs today f, (key recs today f).trans (key recs today g).symm⟩⟩

/--
One observable step of a run of check_excel: a line appended to the change
log, the pickle save of line 175, the hash save of line 176, or one send
attempt of the notification loop.
-/
inductive Event where
  | logged (rec : ChangeRecord) : Event
  | savedData (s : Snapshot) : Event
  | savedHash (h : String) : Event
  | sendAttempted (e : Email) (o : SendOutcome) : Event
deriving DecidableEq, Repr

/--
The hash check of lines 120-126: a change line is logged only when a
stored hash exists, is truthy (Python treats the empty string as false),
and differs from the current hash.
-/
def hashEvents (previous_hash : Option String) (current_hash : String) : List Event :=
  match previous_hash with
  | Option.none => []
  | Option.some p =>
    if p ≠ "" ∧ current_hash ≠ p then [Event.logged ChangeRecord.hashChanged] else []

/--
One run of check_excel, lines 112-216, as its ordered trace of events: the
hash check, then the comparison block logging its change records, then the
two persistence steps of lines 175-176, then the notification loop over
the current rows. toRecord stands for the by-name column access of lines
185-188 turning one dataframe row into a Record.
-/
def check_excel (df_previous : Option Snapshot) (previous_hash : Option String)
    (df_current : Snapshot) (current_hash : String)
    (toRecord : List Cell → Record) (today : Int)
    (transport : Nat → TransportResult) : List Event :=
  hashEvents previous_hash current_hash
    ++ (diff df_previous df_current).map Event.logged
    ++ [Event.savedData df_current, Event.savedHash current_hash]
    ++ (notifyPhase (df_current.rows.map toRecord) today transport).map
        fun p => Event.sendAttempted p.1 p.2

/-- True for the two persistence events. -/
def Event.isSave : Event → Bool
  | Event.savedData _ => true
  | Event.savedHash _ => true
  | _ => false

/-- True for a send attempt of the notification loop. -/
def Event.isSend : Event → Bool
  | Event.sendAttempted _ _ => true
  | _ => false

theorem mem_hashEvents (previous_hash : Option String) (current_hash : String)
    (e : Event) (h : e ∈ hashEvents previous_hash current_hash) :
    e = Event.logged ChangeRecord.hashChanged := by
  rcases previous_hash with _ | p
  · simp [hashEvents] at h
  · simp only [hashEvents] at h
    split at h
    · rw [List.mem_singleton] at h
      exact h
    · simp at h

/--
Claim C6: in every run, whatever the transport does, the trace splits as a
send-free part, then the two persistence events saving exactly the current
snapshot and the current hash, then a part with no further persistence. So
the stores already hold the current data before any notification is 
dispatched, and a notification failure cannot change what was persisted.
-/
theorem c6_persist_before_notify (df_previous : Option Snapshot)
    (previous_hash : Option String) (df_current : Snapshot) (current_hash : String)
    (toRecord : List Cell → Record) (today : Int) (transport : Nat → TransportResult) :
    ∃ pre post,
      check_excel df_previous previous_hash df_current current_hash toRecord today transport
          = pre ++ [Event.savedData df_current, Event.savedHash current_hash] ++ post ∧
        (∀ e ∈ pre, e.isSend = false) ∧
        (∀ e ∈ post, e.isSave = false) := by
  refine ⟨hashEvents previous_hash current_hash
      ++ (diff df_previous df_current).map Event.logged,
    (notifyPhase (df_current.rows.map toRecord) today transport).map
      (fun p => Event.sendAttempted p.1 p.2), ?_, ?_, ?_⟩
  · simp [check_excel, List.append_assoc]
  · intro e he
    rcases List.mem_append.mp he with h | h
    · rw [mem_hashEvents previous_hash current_hash e h]
      rfl
    · obtain ⟨r, _, hr⟩ := List.mem_map.mp h
      rw [← hr]
      rfl
  · intro e he
    obtain ⟨p, _, hp⟩ := List.mem_map.mp he
    rw [← hp]
    rfl

/-- The change-log lines among the events of a run. -/
def loggedRecords (es : List Event) : List ChangeRecord :=
  es.filterMap fun e =>
    match e with
    | Event.logged r => Option.some r
    | _ => Option.none

/--
Claim C8: a first-ever run, with no stored snapshot and no stored hash,
logs exactly the single first-run lifecycle marker and no comparison
records, and its trace contains the persistence of the current snapshot
and of the current hash.
-/
theorem c8_first_run (df_current : Snapshot) (current_hash : String)
    (toRecord : List Cell → Record) (today : Int) (transport : Nat → TransportResult) :
    loggedRecords (check_excel Option.none Option.none df_current current_hash
        toRecord today transport) = [ChangeRecord.firstRun] ∧
      Event.savedData df_current ∈ check_excel Option.none Option.none df_current
        current_hash toRecord today transport ∧
      Event.savedHash current_hash ∈ check_excel Option.none Option.none df_current
        current_hash toRecord today transport := by
  refine ⟨?_, ?_, ?_⟩
  · simp [check_excel, loggedRecords, hashEvents, diff, List.filterMap_append,
      List.filterMap_map]
  · simp [check_excel]
  · simp [check_excel]
